import Mathlib

/-!
Verification development for the `microservice_telegram` repository.

The repository bridges chat platforms (Telegram / LINE) and IoT devices.
This file gives a shallow embedding of the parts the specification's claims
are about:

* `IoTQbroker.IoTParse_Message` (command parsing / dispatch, lines 166-255),
  including the regex matchers, the device-catalog validation and the
  device-transport publishes performed by `Device.enable/disable/get_status`;
* `IoTQbroker.Device.bind_user` and the global `bindings` registry;
* `IMQbroker.consume_queue.callback` (the durable-queue consumer and
  notification fan-out, lines 80-146) together with the module-global
  `greeted_users` set, and `IMLine.check_and_add_greeted_user`;
* the startup/connection logic of `IMQbroker.consume_queue.init_rabbitmq`
  (lines 55-70) and of `app.py` (lines 10-16, 35-37).

Text is modelled as `List Char`; Python's `str.lower`, `str.strip`, the regex
classes `\s` and `[\w_]` are modelled over ASCII (the character sets the code
and its inputs actually use).  Python dictionaries keyed by strings with a
`get(key, default)` access discipline are modelled as total functions with the
default for missing keys; Python sets are modelled as duplicate-free lists
(membership structures).  External effects (MQTT publishes, HTTP sends, queue
ack/nack) are reified into the return values of the embedded functions.
-/

/-! ## Text primitives (Python string/regex model) -/

/-- ASCII model of Python `str.lower` (`Char.toLower` lowers exactly `A`-`Z`). -/
def pyLower (s : List Char) : List Char := s.map Char.toLower

/-- The whitespace class of Python `str.strip()` and of the regex class `\s`
(ASCII part): space, tab, newline, carriage return, vertical tab, form feed. -/
def isPySpace (c : Char) : Bool :=
  c == ' ' || c == '\t' || c == '\n' || c == '\r' || c == '\x0b' || c == '\x0c'

/-- The regex character class `[\w_]` (ASCII model): alphanumerics and `_`. -/
def isWordChar (c : Char) : Bool := c.isAlphanum || c == '_'

/-- Python `str.strip()`: drop leading and trailing whitespace. -/
def pyStrip (s : List Char) : List Char :=
  (((s.dropWhile isPySpace).reverse.dropWhile isPySpace)).reverse

/-- The normalisation `message_text.lower().strip()` performed at
IoTQbroker.py line 167 before any matching. -/
def normalizeText (s : List Char) : List Char := pyStrip (pyLower s)

/-- `needle` occurs as a contiguous substring of `hay` (Python `in` on `str`). -/
def containsSub (needle hay : List Char) : Bool :=
  hay.tails.any (fun t => needle.isPrefixOf t)

/-! ## Configuration (config.py) -/

/-- config.SUPPORTED_DEVICES (config.py lines 39-44). -/
def SUPPORTED_DEVICES : List (List Char) :=
  ["esp32_light_001".data, "esp32_fan_002".data,
   "raspberrypi_light_001".data, "raspberrypi_fan_002".data]

/-- config.DEVICE_ID (config.py line 18; default value of the `DEVICE_ID`
environment variable). -/
def DEVICE_ID : String := "esp32_light_001"

/-! ## Regex matchers of IoTQbroker.IoTParse_Message -/

/-- Match of the regex `^KW(\s+([\w_]+))?$` against `t`, for a literal keyword
`KW` (no metacharacters): `none` = no match; `some none` = matched with no
trailing argument (group 3 absent); `some (some a)` = matched with trailing
argument `a`. -/
def kwArgMatch (kw t : List Char) : Option (Option (List Char)) :=
  if t = kw then some none
  else if t.take kw.length = kw then
    let rest := t.drop kw.length
    let sp := rest.takeWhile isPySpace
    let arg := rest.dropWhile isPySpace
    if sp ≠ [] ∧ arg ≠ [] ∧ arg.all isWordChar then some (some arg) else none
  else none

/-- Regex `^(A|B)(\s+([\w_]+))?$`: alternation of two literal keywords.  The
two alternatives of every use differ in their first character, so at most one
can match and the alternation order is immaterial. -/
def altKwArgMatch (a b t : List Char) : Option (Option (List Char)) :=
  (kwArgMatch a t).orElse (fun _ => kwArgMatch b t)

/-- `re.match(r"^(turn on|/enable)(\s+([\w_]+))?$", t)` (IoTQbroker.py 204). -/
def enable_match (t : List Char) : Option (Option (List Char)) :=
  altKwArgMatch "turn on".data "/enable".data t

/-- `re.match(r"^(turn off|/disable)(\s+([\w_]+))?$", t)` (IoTQbroker.py 205). -/
def disable_match (t : List Char) : Option (Option (List Char)) :=
  altKwArgMatch "turn off".data "/disable".data t

/-- `re.match(r"^(get status|/status)(\s+([\w_]+))?$", t)` (IoTQbroker.py 206). -/
def status_match (t : List Char) : Option (Option (List Char)) :=
  altKwArgMatch "get status".data "/status".data t

/-- `re.match(r"^/bind\s+([\w_]+)$", t)` (IoTQbroker.py 185); the argument is
mandatory here, so a bare `/bind` does not match. -/
def bind_match (t : List Char) : Option (List Char) :=
  match kwArgMatch "/bind".data t with
  | some (some a) => some a
  | _ => none

/-- The (normalised) text is one of the help triggers of IoTQbroker.py 171. -/
def isHelpText (t : List Char) : Prop :=
  t = "hi".data ∨ t = "hello".data ∨ t = "/start".data

instance (t : List Char) : Decidable (isHelpText t) := by
  unfold isHelpText
  infer_instance

/-- Device-id resolution of IoTQbroker.py lines 208-216: the trailing argument
of the first of enable/disable/status that matched with an argument, else the
caller's default device id. -/
def extractDeviceId (t dflt : List Char) : List Char :=
  match enable_match t with
  | some (some d) => d
  | _ =>
    match disable_match t with
    | some (some d) => d
    | _ =>
      match status_match t with
      | some (some d) => d
      | _ => dflt

/-! ## The binding registry (IoTQbroker.py) -/

/-- IoTQbroker.py line 17: the global `bindings` dict, `device_id → set(chat_id)`.
The dict is modelled as a total function defaulting to the empty set — every
read uses `bindings.get(device_id, set())` and `bind_user` initialises a
missing key to `set()` before inserting, so a missing key and an empty set are
indistinguishable.  A set is a duplicate-free list (membership structure). -/
def Bindings : Type := List Char → List (List Char)

/-- Python `set.add`: append the element when absent. -/
def addChat (c : List Char) (s : List (List Char)) : List (List Char) :=
  if c ∈ s then s else s ++ [c]

/-- `Device.bind_user` (IoTQbroker.py 37-46): create the key if missing, add
`chatId` to the device's set, return `True` (the body cannot raise). -/
def bind_user (b : Bindings) (deviceId chatId : List Char) : Bool × Bindings :=
  (true, fun d => if d = deviceId then addChat chatId (b deviceId) else b d)

/-- `Device.get_bound_users` (IoTQbroker.py 49-56). -/
def get_bound_users (b : Bindings) (deviceId : List Char) : List (List Char) :=
  b deviceId

/-! ## Device attributes and transport topics (IoTQbroker.py Device) -/

/-- `Device.__init__` (IoTQbroker.py 27): manufacturer inferred from the id. -/
def manufacturerOf (deviceId : List Char) : List Char :=
  if containsSub "raspberrypi".data deviceId then "raspberrypi".data else "esp32".data

/-- `Device.__init__` (IoTQbroker.py 28): device type inferred from the id. -/
def deviceTypeOf (deviceId : List Char) : List Char :=
  if containsSub "light".data deviceId then "light".data else "fan".data

/-- Topic `{manufacturer}/{device_type}/{verb}` used by
`Device.enable/disable/get_status` (IoTQbroker.py 60, 71, 82). -/
def commandTopic (deviceId verb : List Char) : List Char :=
  manufacturerOf deviceId ++ "/".data ++ deviceTypeOf deviceId ++ "/".data ++ verb

/-! ## IoTParse_Message (IoTQbroker.py 166-255) -/

/-- Outcomes of the external effects reached from `IoTParse_Message`:
whether `Device(...)` construction (IoTQbroker.py 193/224, which initialises a
`MessageAPI` and connects) succeeds — when it does not, it raises and the
`except Exception` handler at line 251 runs — and whether the MQTT publish
inside `MessageAPI.send_message` succeeds, which is the boolean
`Device.enable/disable/get_status` return. -/
structure Env where
  deviceInitOk : Bool
  publishOk : Bool
  deriving DecidableEq, Repr

/-- The dict returned by `IoTParse_Message` (fields absent from a given return
are `none`) together with the reified effects of the call: the chat replies it
sent through `IMQbroker.send_message` and the device-transport publish calls
it performed, plus a marker that the `except Exception` handler ran. -/
structure ParseResult where
  success : Bool
  action : Option (List Char) := none
  message : Option (List Char) := none
  device_id : Option (List Char) := none
  imSends : List (List Char × List Char) := []
  publishes : List (List Char × List Char) := []
  raised : Bool := false
  deriving DecidableEq, Repr

/-- The help text sent for `hi`/`hello`/`/start` (IoTQbroker.py 172-179). -/
def helpText : List Char :=
  ("It is an IoT control bot\nUse commands:\nturn on \x7bdevice_id\x7d to enable the device\nturn off \x7bdevice_id\x7d to disable the device\nget status \x7bdevice_id\x7d to get the device status\n/Bind \x7bdevice_id\x7d to bind to a device").data

/-- `", ".join(config.SUPPORTED_DEVICES)`. -/
def joinSupported : List Char := List.intercalate ", ".data SUPPORTED_DEVICES

/-- The `Invalid device_id: ...` chat reply (IoTQbroker.py 191/221). -/
def invalidDeviceMsg (d : List Char) : List Char :=
  "Invalid device_id: ".data ++ d ++ ". Available devices: ".data ++ joinSupported

/-- Return of the `except Exception` handler (IoTQbroker.py 251-255). -/
def errorResult (chat_id : List Char) : ParseResult :=
  { success := false
    message := some "Error processing command".data
    imSends := [(chat_id, "An error occurred while processing your command. Please try again.".data)]
    raised := true }

/-- Body of `IoTParse_Message` after the normalisation of line 167: `t` is the
already lower-cased and stripped text.  Follows IoTQbroker.py 170-255: help
texts; the bind command (validate against the catalog, construct the target
`Device`, `bind_user`); the enable/disable/status matches with device-id
resolution (lines 204-216), catalog validation (219-222), target `Device`
construction (224) and command dispatch (227-250).  `Device` construction with
`env.deviceInitOk = false` raises, landing in the handler of line 251. -/
def IoTParse_core (env : Env) (t dflt chat_id : List Char) (bindings : Bindings) :
    ParseResult × Bindings :=
  if isHelpText t then
    ({ success := true, action := some "Help".data,
       imSends := [(chat_id, helpText)] }, bindings)
  else
    match bind_match t with
    | some did =>
      if did ∉ SUPPORTED_DEVICES then
        ({ success := false, message := some "Invalid device_id".data,
           imSends := [(chat_id, invalidDeviceMsg did)] }, bindings)
      else if env.deviceInitOk then
        match bind_user bindings did chat_id with
        | (ok, b') =>
          if ok then
            ({ success := true, action := some "Bind".data, device_id := some did,
               imSends := [(chat_id, "Successfully bound to device ".data ++ did)] }, b')
          else
            ({ success := false, message := some "Failed to bind to device".data,
               imSends := [(chat_id, "Failed to bind to device ".data ++ did)] }, b')
      else (errorResult chat_id, bindings)
    | none =>
      let did := extractDeviceId t dflt
      if did ∉ SUPPORTED_DEVICES then
        ({ success := false, message := some "Invalid device_id".data,
           imSends := [(chat_id, invalidDeviceMsg did)] }, bindings)
      else if ¬env.deviceInitOk then (errorResult chat_id, bindings)
      else
        match enable_match t with
        | some _ =>
          if env.publishOk then
            ({ success := true, action := some "Enable".data, device_id := some did,
               imSends := [(chat_id, "Command received: turn on ".data ++ did)],
               publishes := [(commandTopic did "enable".data, "on".data)] }, bindings)
          else
            ({ success := false, message := some "Failed to enable device".data,
               imSends := [(chat_id, "Failed to enable device ".data ++ did)],
               publishes := [(commandTopic did "enable".data, "on".data)] }, bindings)
        | none =>
          match disable_match t with
          | some _ =>
            if env.publishOk then
              ({ success := true, action := some "Disable".data, device_id := some did,
                 imSends := [(chat_id, "Command received: turn off ".data ++ did)],
                 publishes := [(commandTopic did "disable".data, "off".data)] }, bindings)
            else
              ({ success := false, message := some "Failed to disable device".data,
                 imSends := [(chat_id, "Failed to disable device ".data ++ did)],
                 publishes := [(commandTopic did "disable".data, "off".data)] }, bindings)
          | none =>
            match status_match t with
            | some _ =>
              if env.publishOk then
                ({ success := true, action := some "GetStatus".data, device_id := some did,
                   imSends := [(chat_id, "Command received: get status ".data ++ did)],
                   publishes := [(commandTopic did "get_status".data, "get_status".data)] }, bindings)
              else
                ({ success := false, message := some "Failed to get device status".data,
                   imSends := [(chat_id, "Failed to get status for device ".data ++ did)],
                   publishes := [(commandTopic did "get_status".data, "get_status".data)] }, bindings)
            | none =>
              ({ success := false, message := some "Invalid command".data,
                 imSends := [(chat_id, "Invalid command. Use /start for help.".data)] }, bindings)

/-- Shallow embedding of `IoTQbroker.IoTParse_Message` (lines 166-255): the
input text is lower-cased and stripped (line 167) and the body runs on the
normalised text.  Parameters: the effect environment, the raw text, the
calling device's id (`device.device_id`, the default target), the caller's
chat id, and the global binding registry; returns the result dict (with
reified effects) and the updated registry. -/
def IoTParse_Message (env : Env) (message_text dflt chat_id : List Char)
    (bindings : Bindings) : ParseResult × Bindings :=
  IoTParse_core env (normalizeText message_text) dflt chat_id bindings

/-- The target device id the dispatch path resolves on already-normalised
text: the argument of `/bind`, the trailing argument of a recognised command,
or the caller's default device id; `none` for the help texts, which target no
device. -/
def resolved_core (t dflt : List Char) : Option (List Char) :=
  if isHelpText t then none
  else
    match bind_match t with
    | some did => some did
    | none => some (extractDeviceId t dflt)

/-- The target device id the dispatch path resolves for a raw input text. -/
def resolvedDeviceId (message_text dflt : List Char) : Option (List Char) :=
  resolved_core (normalizeText message_text) dflt

/-- No grammar of `IoTParse_Message` matches the (normalised) text. -/
def unrecognizedText (t : List Char) : Prop :=
  ¬isHelpText t ∧ bind_match t = none ∧ enable_match t = none ∧
    disable_match t = none ∧ status_match t = none

instance (t : List Char) : Decidable (unrecognizedText t) := by
  unfold unrecognizedText
  infer_instance

/-! ## The queue consumer and fan-out (IMQbroker.py consume_queue.callback) -/

/-- A queue message body after `json.loads`: the fields
`consume_queue.callback` reads, with `none` for an absent key. -/
structure Msg where
  platform : Option String := none
  chat_id : Option String := none
  device_status : Option String := none
  device_id : Option String := none
  user_id : Option String := none
  username : Option String := none
  deriving DecidableEq, Repr

/-- Python falsy test on an optional string field (`None` or `""`). -/
def falsyStr : Option String → Bool
  | none => true
  | some s => s == ""

/-- Disposition the callback gives a delivered message: `basic_ack`, or
`basic_nack` with `requeue=False`. -/
inductive Disposition
  | ack
  | nackNoRequeue
  deriving DecidableEq, Repr

/-- One outgoing chat message produced by the callback: recipient, greeting
component (possibly empty) and body; the transmitted text is
`greet ++ body`. -/
structure Send where
  recipient : String
  greet : String
  body : String
  deriving DecidableEq, Repr

/-- Python `set.add` on a chat-id set (duplicate-free list model). -/
def insertUser (c : String) (g : List String) : List String :=
  if c ∈ g then g else c :: g

/-- `IMLine.check_and_add_greeted_user` (IMLine.py 39-44): the test-and-set on
IMLine's module-global greeted set, performed under `greeted_users_lock`:
returns whether the caller should greet, inserting in the same step. -/
def check_and_add_greeted_user (g : List String) (chatId : String) :
    Bool × List String :=
  if chatId ∉ g then (true, insertUser chatId g) else (false, g)

/-- Shallow embedding of `IMQbroker.consume_queue.callback` (IMQbroker.py
80-146) acting on the module-global `greeted_users` set `g`.  `body = none`
models a `json.JSONDecodeError` from `json.loads` (line 141 handler).
Messages with a falsy `device_status` or `chat_id`, or a platform other than
`telegram`/`line`, are acknowledged and dropped (lines 94-108).  Otherwise the
originator is sent `[greeting]Device {id} is now {status}, operated by user
{username}` with the greeting exactly when the chat id was not yet greeted
(lines 110-119).  The code then builds `notified_users = {chat_id}` and a
`Device` (lines 121-123) and evaluates `device.group_id` (line 125) — but
`IoTQbroker.Device.__init__` never sets a `group_id` (or `group_members`)
attribute, so this access raises `AttributeError` unconditionally; the
group-member loop (126-130), the bound-user loop (132-138) and the ack at line
140 are unreachable, and the `except Exception` handler at line 144 nacks the
message with `requeue=False`.  (If `Device(...)` construction itself raises at
line 123, the same handler runs with the same observable outcome.) -/
def consumeStep (g : List String) (body : Option Msg) :
    List String × List Send × Disposition :=
  match body with
  | none => (g, [], .nackNoRequeue)
  | some m =>
    if falsyStr m.device_status then (g, [], .ack)
    else if falsyStr m.chat_id then (g, [], .ack)
    else
      let platform := m.platform.getD "unknown"
      if ¬(platform = "telegram" ∨ platform = "line") then (g, [], .ack)
      else
        let chatId := m.chat_id.getD ""
        let username := m.username.getD "User"
        let deviceId := m.device_id.getD DEVICE_ID
        let status := m.device_status.getD ""
        let greeting := if chatId ∈ g then "" else "Hi, " ++ username ++ "\n"
        let g' := if greeting ≠ "" then insertUser chatId g else g
        let bodyText :=
          "Device " ++ deviceId ++ " is now " ++ status ++ ", operated by user " ++ username
        (g', [⟨chatId, greeting, bodyText⟩], .nackNoRequeue)

/-- The consumer loop (`basic_consume` with `prefetch_count=1`,
IMQbroker.py 77-150): deliveries are processed strictly one at a time in
order, each through `consumeStep`, threading the `greeted_users` state;
returns the final state, all sends, and the per-message dispositions. -/
def consumeList : List (Option Msg) → List String →
    List String × List Send × List Disposition
  | [], g => (g, [], [])
  | b :: rest, g =>
    let r := consumeStep g b
    let rr := consumeList rest r.1
    (rr.1, r.2.1 ++ rr.2.1, r.2.2 :: rr.2.2)

/-- Sends to `c` that carry a (non-empty) greeting component. -/
def countGreets (c : String) (l : List Send) : Nat :=
  l.countP (fun s => s.recipient == c && !(s.greet == ""))

/-! ## Startup connection handling (IMQbroker.py init_rabbitmq, app.py) -/

/-- Outcome of the queue-consumer connection initialisation over a finite
trace of attempt outcomes: connected after a number of attempts, or still
inside the retry loop once the observed attempts are exhausted. -/
inductive QueueInit
  | connected : Nat → QueueInit
  | retrying : QueueInit
  deriving DecidableEq, Repr

/-- `consume_queue.init_rabbitmq` (IMQbroker.py 55-70) over a trace of
connection-attempt outcomes: on failure it logs, sleeps 5 seconds and calls
itself again; it never exits or aborts.  `retrying` means the observed
attempts are exhausted with the loop still running. -/
def init_rabbitmq : List Bool → QueueInit
  | [] => .retrying
  | ok :: rest =>
    if ok then .connected 1
    else
      match init_rabbitmq rest with
      | .connected n => .connected (n + 1)
      | .retrying => .retrying

/-- Result of the module-level startup of app.py. -/
inductive AppStart
  | exited1
  | running
  deriving DecidableEq, Repr

/-- app.py lines 10-16 and 35-37: `exit(1)` when the initial MQTT
`connect` raises, then `exit(1)` when the status subscription fails;
otherwise the service proceeds to run. -/
def app_startup (connectOk subscribeOk : Bool) : AppStart :=
  if ¬connectOk then .exited1
  else if ¬subscribeOk then .exited1
  else .running

/-- The originator's notification body (IMQbroker.py 114), without the
greeting component. -/
def sendBody (m : Msg) : String :=
  "Device " ++ m.device_id.getD DEVICE_ID ++ " is now " ++ m.device_status.getD "" ++
    ", operated by user " ++ m.username.getD "User"

/-- The originator send produced for an already-greeted chat id. -/
def sendOld (m : Msg) : Send :=
  ⟨m.chat_id.getD "", "", sendBody m⟩

/-- The originator send produced for a not-yet-greeted chat id. -/
def sendNew (m : Msg) : Send :=
  ⟨m.chat_id.getD "", "Hi, " ++ m.username.getD "User" ++ "\n", sendBody m⟩

/-- The validation-drop condition of IMQbroker.py lines 94-108: falsy
`device_status`, falsy `chat_id`, or a platform other than telegram/line. -/
def dropCond (m : Msg) : Prop :=
  falsyStr m.device_status = true ∨ falsyStr m.chat_id = true ∨
    ¬(m.platform.getD "unknown" = "telegram" ∨ m.platform.getD "unknown" = "line")

instance (m : Msg) : Decidable (dropCond m) := by
  unfold dropCond
  infer_instance

/-! ## Helper lemmas -/

theorem dropWhile_append_all (p : Char → Bool) (a x : List Char)
    (h : a.all p = true) : (a ++ x).dropWhile p = x.dropWhile p := by
  induction a with
  | nil => rfl
  | cons c a ih =>
    simp only [List.all_cons, Bool.and_eq_true] at h
    simp [List.dropWhile_cons, h.1, ih h.2]

theorem dropWhile_append_ne (p : Char → Bool) (x z : List Char)
    (h : x.dropWhile p ≠ []) : (x ++ z).dropWhile p = x.dropWhile p ++ z := by
  induction x with
  | nil => simp [List.dropWhile] at h
  | cons c x ih =>
    by_cases hc : p c = true
    · simp only [List.dropWhile_cons, hc, if_true] at h
      simp only [List.cons_append, List.dropWhile_cons, hc, if_true]
      exact ih h
    · simp [List.cons_append, List.dropWhile_cons, hc]

theorem dropWhile_append_nil (p : Char → Bool) (x z : List Char)
    (h : x.dropWhile p = []) : (x ++ z).dropWhile p = z.dropWhile p := by
  induction x with
  | nil => rfl
  | cons c x ih =>
    by_cases hc : p c = true
    · simp only [List.dropWhile_cons, hc, if_true] at h
      simp only [List.cons_append, List.dropWhile_cons, hc, if_true]
      exact ih h
    · simp [List.dropWhile_cons, hc] at h

theorem all_dropWhile_eq_nil (p : Char → Bool) (a : List Char)
    (h : a.all p = true) : a.dropWhile p = [] := by
  have := dropWhile_append_all p a [] h
  simpa using this

theorem isPySpace_toLower (c : Char) (h : isPySpace c = true) : c.toLower = c := by
  simp only [isPySpace, Bool.or_eq_true, beq_iff_eq] at h
  rcases h with ((((h | h) | h) | h) | h) | h <;> subst h <;> decide

theorem pyLower_of_all_space (w : List Char) (h : w.all isPySpace = true) :
    pyLower w = w := by
  unfold pyLower
  rw [List.all_eq_true] at h
  exact List.map_congr_left (fun c hc => isPySpace_toLower c (h c hc)) |>.trans (List.map_id w)

theorem pyStrip_append_spaces (a x b : List Char)
    (ha : a.all isPySpace = true) (hb : b.all isPySpace = true) :
    pyStrip (a ++ x ++ b) = pyStrip x := by
  unfold pyStrip
  rw [List.append_assoc, dropWhile_append_all isPySpace a (x ++ b) ha]
  by_cases hx : x.dropWhile isPySpace = []
  · rw [dropWhile_append_nil isPySpace x b hx, all_dropWhile_eq_nil isPySpace b hb, hx]
  · rw [dropWhile_append_ne isPySpace x b hx, List.reverse_append,
      dropWhile_append_all isPySpace b.reverse (x.dropWhile isPySpace).reverse
        (by rw [List.all_reverse]; exact hb)]

theorem normalizeText_invariant (t t' w1 w2 : List Char)
    (h1 : w1.all isPySpace = true) (h2 : w2.all isPySpace = true)
    (hc : pyLower t' = pyLower t) :
    normalizeText (w1 ++ t' ++ w2) = normalizeText t := by
  unfold normalizeText
  have e1 : List.map Char.toLower w1 = w1 := pyLower_of_all_space w1 h1
  have e2 : List.map Char.toLower w2 = w2 := pyLower_of_all_space w2 h2
  have hsplit : pyLower (w1 ++ t' ++ w2) = w1 ++ pyLower t' ++ w2 := by
    simp [pyLower, List.map_append, e1, e2]
  rw [hsplit, pyStrip_append_spaces w1 (pyLower t') w2 h1 h2, hc]

theorem greeting_ne_empty (u : String) : ("Hi, " ++ u ++ "\n" : String) ≠ "" := by
  intro h
  have hlen := congrArg String.length h
  rw [String.length_append, String.length_append] at hlen
  have h4 : ("Hi, " : String).length = 4 := rfl
  have h1 : ("\n" : String).length = 1 := rfl
  have h0 : ("" : String).length = 0 := rfl
  rw [h4, h1, h0] at hlen
  omega

theorem mem_addChat_self (c : List Char) (s : List (List Char)) : c ∈ addChat c s := by
  by_cases h : c ∈ s <;> simp [addChat, h]

theorem addChat_idem (c : List Char) (s : List (List Char)) :
    addChat c (addChat c s) = addChat c s := by
  have h : c ∈ (if c ∈ s then s else s ++ [c]) := mem_addChat_self c s
  simp only [addChat]
  rw [if_pos h]

/-! ## Claim theorems -/

/-- Claim C7: binding is idempotent — for every registry state, device id and
subscriber chat id, both calls of `bind_user` return success, the second call
leaves the whole registry (hence the device's subscriber set, members and
cardinality) exactly as after the first. -/
theorem c7_bind_idempotent :
    ∀ (b : Bindings) (d s : List Char),
      (bind_user b d s).1 = true ∧
      (bind_user (bind_user b d s).2 d s).1 = true ∧
      (bind_user (bind_user b d s).2 d s).2 = (bind_user b d s).2 ∧
      ((bind_user (bind_user b d s).2 d s).2 d).length
        = ((bind_user b d s).2 d).length := by
  intro b d s
  have key : (bind_user (bind_user b d s).2 d s).2 = (bind_user b d s).2 := by
    funext x
    by_cases hx : x = d
    · subst hx
      simp [bind_user, addChat_idem]
    · simp [bind_user, hx]
  exact ⟨rfl, rfl, key, by rw [key]⟩

/-- Claim C9 (counterexample): the queue consumer's very first connection
attempt fails, yet the program does not abort startup — `init_rabbitmq`
retries and is connected on the second attempt; a single failure leaves it
retrying, not aborted. -/
theorem c9_counterexample :
    init_rabbitmq [false, true] = QueueInit.connected 2 ∧
    init_rabbitmq [false] = QueueInit.retrying := by
  constructor <;> rfl

/-- Claim C9 (amended): in app.py, failure of the initial MQTT connect aborts
startup with `exit(1)`; in the queue consumer, failure of the first connection
attempt is never fatal — `init_rabbitmq` keeps retrying through any number of
consecutive failures and connects exactly when some later attempt succeeds. -/
theorem c9_amended_startup :
    ∀ (k : Nat) (rest : List Bool) (s : Bool),
      init_rabbitmq (List.replicate k false) = QueueInit.retrying ∧
      ((∃ n, init_rabbitmq (false :: rest) = QueueInit.connected n) ↔
        (∃ n, init_rabbitmq rest = QueueInit.connected n)) ∧
      app_startup false s = AppStart.exited1 := by
  intro k rest s
  refine ⟨?_, ?_, rfl⟩
  · induction k with
    | zero => rfl
    | succ k ih => simp [List.replicate_succ, init_rabbitmq, ih]
  · cases h : init_rabbitmq rest with
    | connected n => simp [init_rabbitmq, h]
    | retrying => simp [init_rabbitmq, h]

theorem countGreets_append (c : String) (l1 l2 : List Send) :
    countGreets c (l1 ++ l2) = countGreets c l1 + countGreets c l2 := by
  unfold countGreets
  exact List.countP_append _ _ _

theorem consumeStep_drop (g : List String) (m : Msg) (h : dropCond m) :
    consumeStep g (some m) = (g, [], Disposition.ack) := by
  simp only [consumeStep]
  by_cases h1 : falsyStr m.device_status = true
  · simp [h1]
  · by_cases h2 : falsyStr m.chat_id = true
    · simp [h1, h2]
    · have h3 := (h.resolve_left h1).resolve_left h2
      simp [h1, h2, h3]

theorem consumeStep_valid_mem (g : List String) (m : Msg)
    (h1 : falsyStr m.device_status = false) (h2 : falsyStr m.chat_id = false)
    (h3 : m.platform.getD "unknown" = "telegram" ∨ m.platform.getD "unknown" = "line")
    (h4 : m.chat_id.getD "" ∈ g) :
    consumeStep g (some m) = (g, [sendOld m], Disposition.nackNoRequeue) := by
  simp only [consumeStep, sendOld, sendBody]
  simp [h1, h2, h3, h4]

theorem consumeStep_valid_new (g : List String) (m : Msg)
    (h1 : falsyStr m.device_status = false) (h2 : falsyStr m.chat_id = false)
    (h3 : m.platform.getD "unknown" = "telegram" ∨ m.platform.getD "unknown" = "line")
    (h4 : m.chat_id.getD "" ∉ g) :
    consumeStep g (some m) =
      (m.chat_id.getD "" :: g, [sendNew m], Disposition.nackNoRequeue) := by
  simp only [consumeStep, sendNew, sendBody]
  simp [h1, h2, h3, h4, insertUser, greeting_ne_empty (m.username.getD "User")]

theorem consumeStep_split (g : List String) (m : Msg) :
    consumeStep g (some m) = (g, [], Disposition.ack) ∨
    (m.chat_id.getD "" ∈ g ∧
      consumeStep g (some m) = (g, [sendOld m], Disposition.nackNoRequeue)) ∨
    (m.chat_id.getD "" ∉ g ∧
      consumeStep g (some m) =
        (m.chat_id.getD "" :: g, [sendNew m], Disposition.nackNoRequeue)) := by
  by_cases hd : dropCond m
  · exact Or.inl (consumeStep_drop g m hd)
  · unfold dropCond at hd
    push_neg at hd
    obtain ⟨h1, h2, h3⟩ := hd
    have h1' : falsyStr m.device_status = false := by
      revert h1; cases falsyStr m.device_status <;> simp
    have h2' : falsyStr m.chat_id = false := by
      revert h2; cases falsyStr m.chat_id <;> simp
    by_cases h4 : m.chat_id.getD "" ∈ g
    · exact Or.inr (Or.inl ⟨h4, consumeStep_valid_mem g m h1' h2' h3 h4⟩)
    · exact Or.inr (Or.inr ⟨h4, consumeStep_valid_new g m h1' h2' h3 h4⟩)

theorem consumeStep_mono (g : List String) (b : Option Msg) (x : String)
    (hx : x ∈ g) : x ∈ (consumeStep g b).1 := by
  cases b with
  | none => exact hx
  | some m =>
    rcases consumeStep_split g m with h | ⟨_, h⟩ | ⟨_, h⟩ <;> rw [h] <;> simp [hx]

theorem consumeStep_zero_of_mem (g : List String) (b : Option Msg) (c : String)
    (hc : c ∈ g) : countGreets c (consumeStep g b).2.1 = 0 := by
  cases b with
  | none => rfl
  | some m =>
    rcases consumeStep_split g m with h | ⟨_, h⟩ | ⟨hnot, h⟩ <;> rw [h]
    · rfl
    · simp [countGreets, List.countP_cons, sendOld]
    · have hne : m.chat_id.getD "" ≠ c := fun e => hnot (e ▸ hc)
      simp [countGreets, List.countP_cons, sendNew, hne]

theorem consumeStep_greets_le_one (g : List String) (b : Option Msg) (c : String) :
    countGreets c (consumeStep g b).2.1 ≤ 1 := by
  cases b with
  | none => simp [countGreets, consumeStep]
  | some m =>
    rcases consumeStep_split g m with h | ⟨_, h⟩ | ⟨_, h⟩ <;> rw [h] <;>
      simp [countGreets, List.countP_cons] <;> split <;> simp

theorem consumeStep_greeted_state (g : List String) (m : Msg) (c : String)
    (h : 0 < countGreets c (consumeStep g (some m)).2.1) :
    c ∈ (consumeStep g (some m)).1 ∧ c ∉ g := by
  rcases consumeStep_split g m with hs | ⟨_, hs⟩ | ⟨hnot, hs⟩ <;> rw [hs] at h ⊢
  · simp [countGreets] at h
  · simp [countGreets, List.countP_cons, sendOld] at h
  · simp only [countGreets, List.countP_cons, List.countP_nil, sendNew] at h
    by_cases he : m.chat_id.getD "" = c
    · subst he
      simp [hnot]
    · simp [he] at h

theorem consumeList_zero_of_mem (msgs : List (Option Msg)) :
    ∀ (g : List String) (c : String), c ∈ g →
      countGreets c (consumeList msgs g).2.1 = 0 := by
  induction msgs with
  | nil => intro g c _; rfl
  | cons b rest ih =>
    intro g c hc
    simp only [consumeList]
    rw [countGreets_append, consumeStep_zero_of_mem g b c hc,
      ih (consumeStep g b).1 c (consumeStep_mono g b c hc)]

theorem consumeList_greets_le_one (msgs : List (Option Msg)) :
    ∀ (g : List String) (c : String), countGreets c (consumeList msgs g).2.1 ≤ 1 := by
  induction msgs with
  | nil => intro g c; simp [consumeList, countGreets]
  | cons b rest ih =>
    intro g c
    simp only [consumeList]
    rw [countGreets_append]
    by_cases hstep : 0 < countGreets c (consumeStep g b).2.1
    · cases b with
      | none => simp [consumeStep, countGreets] at hstep
      | some m =>
        obtain ⟨hmem, _⟩ := consumeStep_greeted_state g m c hstep
        rw [consumeList_zero_of_mem rest (consumeStep g (some m)).1 c hmem]
        have hle := consumeStep_greets_le_one g (some m) c
        omega
    · have h0 : countGreets c (consumeStep g b).2.1 = 0 := Nat.eq_zero_of_not_pos hstep
      rw [h0]
      simpa using ih (consumeStep g b).1 c

theorem consumeStep_members (g : List String) (b : Option Msg) (x : String) :
    x ∈ (consumeStep g b).1 ↔
      x ∈ g ∨ ∃ s ∈ (consumeStep g b).2.1, s.recipient = x ∧ s.greet ≠ "" := by
  cases b with
  | none => simp [consumeStep]
  | some m =>
    rcases consumeStep_split g m with h | ⟨_, h⟩ | ⟨hnot, h⟩ <;> rw [h]
    · simp
    · simp [sendOld]
    · constructor
      · intro hx
        rcases List.mem_cons.mp hx with he | hg
        · exact Or.inr ⟨sendNew m, List.mem_singleton_self _, he.symm,
            greeting_ne_empty (m.username.getD "User")⟩
        · exact Or.inl hg
      · rintro (hg | ⟨s, hs, he, _⟩)
        · exact List.mem_cons_of_mem _ hg
        · rw [List.mem_singleton] at hs
          subst hs
          exact List.mem_cons.mpr (Or.inl he.symm)

theorem consumeList_members (msgs : List (Option Msg)) :
    ∀ (g : List String) (x : String),
      x ∈ (consumeList msgs g).1 ↔
        x ∈ g ∨ ∃ s ∈ (consumeList msgs g).2.1, s.recipient = x ∧ s.greet ≠ "" := by
  induction msgs with
  | nil => intro g x; simp [consumeList]
  | cons b rest ih =>
    intro g x
    simp only [consumeList]
    rw [ih (consumeStep g b).1 x, consumeStep_members g b x]
    simp only [List.mem_append]
    constructor
    · rintro ((hg | ⟨s, hs, hp⟩) | ⟨s, hs, hp⟩)
      · exact Or.inl hg
      · exact Or.inr ⟨s, Or.inl hs, hp⟩
      · exact Or.inr ⟨s, Or.inr hs, hp⟩
    · rintro (hg | ⟨s, hs | hs, hp⟩)
      · exact Or.inl (Or.inl hg)
      · exact Or.inl (Or.inr ⟨s, hs, hp⟩)
      · exact Or.inr ⟨s, hs, hp⟩

/-- Claim C1: for every fixed subscriber chat id, across any sequence of
fan-out deliveries processed by the consumer from any starting state, at most
one outgoing message carries the greeting component; the greeted set changes
only by insertion of exactly the chat ids that were sent a greeting (no other
mutation); and `check_and_add_greeted_user` is the atomic test-and-set: in one
step it reports "greet" exactly for a not-yet-greeted chat id and inserts it. -/
theorem c1_greeting_once :
    ∀ (msgs : List (Option Msg)) (g : List String) (c : String),
      countGreets c (consumeList msgs g).2.1 ≤ 1 ∧
      (∀ x, x ∈ (consumeList msgs g).1 ↔
        x ∈ g ∨ ∃ s ∈ (consumeList msgs g).2.1, s.recipient = x ∧ s.greet ≠ "") ∧
      ((check_and_add_greeted_user g c).1 = true ↔ c ∉ g) ∧
      (check_and_add_greeted_user g c).2 = insertUser c g := by
  intro msgs g c
  refine ⟨consumeList_greets_le_one msgs g c, consumeList_members msgs g, ?_, ?_⟩
  · unfold check_and_add_greeted_user
    by_cases h : c ∈ g <;> simp [h]
  · unfold check_and_add_greeted_user insertUser
    by_cases h : c ∈ g <;> simp [h]

/-- Claim C6: a delivery whose body is not decodable JSON is rejected without
requeue (`basic_nack`, `requeue=False`), mutates nothing, and the consumer
loop goes on to process the remaining deliveries exactly as it would have
without the poison message. -/
theorem c6_malformed_nack_loop_continues :
    ∀ (rest : List (Option Msg)) (g : List String),
      consumeList (none :: rest) g =
        ((consumeList rest g).1, (consumeList rest g).2.1,
          Disposition.nackNoRequeue :: (consumeList rest g).2.2) := by
  intro rest g
  simp [consumeList, consumeStep]

/-- Claim C5 (counterexample): a decodable message that merely lacks
`device_status` is ACKNOWLEDGED by the callback although the fan-out engine
never ran for it (no message was sent) — refuting "the consumer acknowledges
only when the fan-out engine has completed, and every non-success is nacked". -/
theorem c5_counterexample :
    consumeStep [] (some { platform := some "telegram", chat_id := some "7" }) =
      ([], [], Disposition.ack) := rfl

/-- Claim C5 (amended): the callback acknowledges exactly the decodable
messages dropped by field validation (falsy `device_status`, falsy `chat_id`,
or a platform other than telegram/line), and an acknowledged message has had
no fan-out send; every other outcome — undecodable JSON, or the exception
raised during fan-out — is rejected without requeue. -/
theorem c5_ack_only_validation_drops :
    ∀ (g : List String) (body : Option Msg),
      ((consumeStep g body).2.2 = Disposition.ack ↔
        ∃ m, body = some m ∧ dropCond m) ∧
      ((consumeStep g body).2.2 = Disposition.ack → (consumeStep g body).2.1 = []) := by
  intro g body
  cases body with
  | none =>
    constructor
    · constructor
      · intro h; simp [consumeStep] at h
      · rintro ⟨m, hm, _⟩; cases hm
    · intro h; simp [consumeStep] at h
  | some m =>
    by_cases hd : dropCond m
    · rw [consumeStep_drop g m hd]
      exact ⟨⟨fun _ => ⟨m, rfl, hd⟩, fun _ => rfl⟩, fun _ => rfl⟩
    · have hnack : (consumeStep g (some m)).2.2 = Disposition.nackNoRequeue := by
        have hd' := hd
        unfold dropCond at hd'
        push_neg at hd'
        obtain ⟨h1, h2, h3⟩ := hd'
        have h1' : falsyStr m.device_status = false := by
          revert h1; cases falsyStr m.device_status <;> simp
        have h2' : falsyStr m.chat_id = false := by
          revert h2; cases falsyStr m.chat_id <;> simp
        by_cases h4 : m.chat_id.getD "" ∈ g
        · rw [consumeStep_valid_mem g m h1' h2' h3 h4]
        · rw [consumeStep_valid_new g m h1' h2' h3 h4]
      rw [hnack]
      constructor
      · constructor
        · intro h; exact absurd h (by simp)
        · rintro ⟨m', hm', hd'⟩
          injection hm' with hmm
          subst hmm
          exact absurd hd' hd
      · intro h; exact absurd h (by simp)

/-- Claim C2 (evaluation at the failing input): a fully valid status event for
`esp32_light_001` from originator chat `111` is processed by the callback —
the originator is notified, but the step ends in a nack with no further send:
the group-member and bound-subscriber notifications of IMQbroker.py 126-138
are never produced because the `device.group_id` access at line 125 raises
(`Device` has no such attribute), so the "other recipients" set is never
computed at all. -/
theorem c2_fanout_unreachable :
    consumeStep [] (some
        ⟨some "telegram", some "111", some "on", some "esp32_light_001",
          none, some "alice"⟩) =
      (["111"],
        [⟨"111", "Hi, alice\n",
          "Device esp32_light_001 is now on, operated by user alice"⟩],
        Disposition.nackNoRequeue) := rfl

theorem c4_core :
    ∀ (env : Env) (t dflt chat : List Char) (b : Bindings) (did : List Char),
      resolved_core t dflt = some did → did ∉ SUPPORTED_DEVICES →
      (IoTParse_core env t dflt chat b).1.success = false ∧
      (IoTParse_core env t dflt chat b).1.message = some "Invalid device_id".data ∧
      (IoTParse_core env t dflt chat b).1.publishes = [] ∧
      (IoTParse_core env t dflt chat b).2 = b := by
  intro env t dflt chat b did hres hmem
  unfold resolved_core at hres
  unfold IoTParse_core
  by_cases hh : isHelpText t
  · rw [if_pos hh] at hres
    cases hres
  · rw [if_neg hh] at hres
    rw [if_neg hh]
    cases hb : bind_match t with
    | some d =>
      rw [hb] at hres
      injection hres with hd
      subst hd
      simp [hb, hmem]
    | none =>
      rw [hb] at hres
      injection hres with hd
      simp only [hb]
      rw [hd]
      simp [hmem]

/-- Claim C4: whenever the resolved target device id is not in
`config.SUPPORTED_DEVICES`, `IoTParse_Message` returns the unknown-device
rejection, performs no device-transport publish, and leaves the binding
registry unchanged — the catalog check short-circuits before any transport
action. -/
theorem c4_unknown_device_no_publish :
    ∀ (env : Env) (text dflt chat : List Char) (b : Bindings) (did : List Char),
      resolvedDeviceId text dflt = some did → did ∉ SUPPORTED_DEVICES →
      (IoTParse_Message env text dflt chat b).1.success = false ∧
      (IoTParse_Message env text dflt chat b).1.message = some "Invalid device_id".data ∧
      (IoTParse_Message env text dflt chat b).1.publishes = [] ∧
      (IoTParse_Message env text dflt chat b).2 = b := by
  intro env text dflt chat b did hres hmem
  exact c4_core env (normalizeText text) dflt chat b did hres hmem

/-- Claim C4 (witness): `/bind nosuch` resolves device id `nosuch`, which is
outside the catalog; the call is rejected with no publish. -/
theorem c4_witness :
    resolvedDeviceId "/bind nosuch".data "esp32_light_001".data = some "nosuch".data ∧
    "nosuch".data ∉ SUPPORTED_DEVICES ∧
    (IoTParse_Message ⟨true, true⟩ "/bind nosuch".data "esp32_light_001".data
      "7".data (fun _ => [])).1.success = false ∧
    (IoTParse_Message ⟨true, true⟩ "/bind nosuch".data "esp32_light_001".data
      "7".data (fun _ => [])).1.publishes = [] := by
  refine ⟨by decide, by decide, ?_, ?_⟩
  · exact (c4_unknown_device_no_publish ⟨true, true⟩ "/bind nosuch".data
      "esp32_light_001".data "7".data (fun _ => []) "nosuch".data
      (by decide) (by decide)).1
  · exact (c4_unknown_device_no_publish ⟨true, true⟩ "/bind nosuch".data
      "esp32_light_001".data "7".data (fun _ => []) "nosuch".data
      (by decide) (by decide)).2.2.1

theorem c10_core :
    ∀ (env : Env) (t dflt chat : List Char) (b : Bindings),
      ((IoTParse_core env t dflt chat b).1.success = true →
        ((IoTParse_core env t dflt chat b).1.action).isSome = true) ∧
      ((IoTParse_core env t dflt chat b).1.success = false →
        ((IoTParse_core env t dflt chat b).1.message).isSome = true) ∧
      ((IoTParse_core env t dflt chat b).1.raised = true →
        (IoTParse_core env t dflt chat b).1.success = false ∧
        (IoTParse_core env t dflt chat b).1.message = some "Error processing command".data) ∧
      (unrecognizedText t → (IoTParse_core env t dflt chat b).1.success = false) := by
  intro env t dflt chat b
  unfold IoTParse_core
  by_cases hh : isHelpText t
  · simp [hh, unrecognizedText]
  · rw [if_neg hh]
    cases hb : bind_match t with
    | some d =>
      simp only [hb]
      by_cases hv : d ∉ SUPPORTED_DEVICES
      · simp [hv, unrecognizedText, hb]
      · cases hei : env.deviceInitOk
        · simp [hv, hei, errorResult, unrecognizedText, hb]
        · simp [hv, hei, bind_user, unrecognizedText, hb]
    | none =>
      simp only [hb]
      by_cases hv : extractDeviceId t dflt ∉ SUPPORTED_DEVICES
      · simp [hv, unrecognizedText, hb]
      · cases hei : env.deviceInitOk
        · simp [hv, hei, errorResult]
        · cases he : enable_match t with
          | some a =>
            cases hp : env.publishOk <;>
              simp [hv, hei, he, hp, unrecognizedText, hb]
          | none =>
            cases hd2 : disable_match t with
            | some a =>
              cases hp : env.publishOk <;>
                simp [hv, hei, he, hd2, hp, unrecognizedText, hb]
            | none =>
              cases hs : status_match t with
              | some a =>
                cases hp : env.publishOk <;>
                  simp [hv, hei, he, hd2, hs, hp, unrecognizedText, hb]
              | none =>
                simp [hv, hei, he, hd2, hs, unrecognizedText, hb]

/-- Claim C10: `IoTParse_Message` is total at its public interface — for every
input text and every outcome of its external effects it returns a result with
a boolean `success`; a successful result carries an `action`, a failed result
carries a `message`; any internally raised error is absorbed into the
`success = False`, `Error processing command` return; and unrecognised text
always yields `success = False`. -/
theorem c10_parse_total :
    ∀ (env : Env) (text dflt chat : List Char) (b : Bindings),
      ((IoTParse_Message env text dflt chat b).1.success = true →
        ((IoTParse_Message env text dflt chat b).1.action).isSome = true) ∧
      ((IoTParse_Message env text dflt chat b).1.success = false →
        ((IoTParse_Message env text dflt chat b).1.message).isSome = true) ∧
      ((IoTParse_Message env text dflt chat b).1.raised = true →
        (IoTParse_Message env text dflt chat b).1.success = false ∧
        (IoTParse_Message env text dflt chat b).1.message
          = some "Error processing command".data) ∧
      (unrecognizedText (normalizeText text) →
        (IoTParse_Message env text dflt chat b).1.success = false) := by
  intro env text dflt chat b
  exact c10_core env (normalizeText text) dflt chat b

/-- Claim C10 (witness): the unrecognised text `do something` (with every
effect succeeding) produces a failed result carrying a message. -/
theorem c10_witness :
    (IoTParse_Message ⟨true, true⟩ "do something".data "esp32_light_001".data
      "7".data (fun _ => [])).1.success = false ∧
    ((IoTParse_Message ⟨true, true⟩ "do something".data "esp32_light_001".data
      "7".data (fun _ => [])).1.message).isSome = true := by
  constructor
  · exact (c10_parse_total ⟨true, true⟩ "do something".data "esp32_light_001".data
      "7".data (fun _ => [])).2.2.2 (by decide)
  · exact (c10_parse_total ⟨true, true⟩ "do something".data "esp32_light_001".data
      "7".data (fun _ => [])).2.1 (by decide)

/-- Claim C3 (counterexample): the claimed grammar is not the implemented one —
`turn on the light` is rejected (not Enable), `/setstatus on` is rejected (no
SetStatus grammar exists), and `/getstatus` is rejected (not GetStatus), all
with every external effect succeeding and a valid default device. -/
theorem c3_counterexample :
    (IoTParse_Message ⟨true, true⟩ "turn on the light".data "esp32_light_001".data
      "7".data (fun _ => [])).1.action ≠ some "Enable".data ∧
    (IoTParse_Message ⟨true, true⟩ "turn on the light".data "esp32_light_001".data
      "7".data (fun _ => [])).1.success = false ∧
    (IoTParse_Message ⟨true, true⟩ "/setstatus on".data "esp32_light_001".data
      "7".data (fun _ => [])).1.success = false ∧
    (IoTParse_Message ⟨true, true⟩ "/getstatus".data "esp32_light_001".data
      "7".data (fun _ => [])).1.action ≠ some "GetStatus".data := by
  refine ⟨?_, ?_, ?_, ?_⟩ <;> decide

theorem c3_core :
    ∀ (env : Env) (t dflt chat : List Char) (b : Bindings),
      env.deviceInitOk = true → env.publishOk = true →
      (isHelpText t →
        (IoTParse_core env t dflt chat b).1.action = some "Help".data ∧
        (IoTParse_core env t dflt chat b).1.success = true) ∧
      (∀ d, bind_match t = some d → d ∈ SUPPORTED_DEVICES → ¬isHelpText t →
        (IoTParse_core env t dflt chat b).1.action = some "Bind".data ∧
        (IoTParse_core env t dflt chat b).1.success = true) ∧
      (∀ a, ¬isHelpText t → bind_match t = none → enable_match t = some a →
        extractDeviceId t dflt ∈ SUPPORTED_DEVICES →
        (IoTParse_core env t dflt chat b).1.action = some "Enable".data ∧
        (IoTParse_core env t dflt chat b).1.success = true) ∧
      (∀ a, ¬isHelpText t → bind_match t = none → enable_match t = none →
        disable_match t = some a →
        extractDeviceId t dflt ∈ SUPPORTED_DEVICES →
        (IoTParse_core env t dflt chat b).1.action = some "Disable".data ∧
        (IoTParse_core env t dflt chat b).1.success = true) ∧
      (∀ a, ¬isHelpText t → bind_match t = none → enable_match t = none →
        disable_match t = none → status_match t = some a →
        extractDeviceId t dflt ∈ SUPPORTED_DEVICES →
        (IoTParse_core env t dflt chat b).1.action = some "GetStatus".data ∧
        (IoTParse_core env t dflt chat b).1.success = true) ∧
      (unrecognizedText t →
        (IoTParse_core env t dflt chat b).1.success = false ∧
        (IoTParse_core env t dflt chat b).1.action = none) := by
  intro env t dflt chat b hei hp
  refine ⟨?_, ?_, ?_, ?_, ?_, ?_⟩
  · intro hh
    simp [IoTParse_core, hh]
  · intro d hb hv hh
    simp [IoTParse_core, hh, hb, hv, hei, bind_user]
  · intro a hh hb he hv
    simp [IoTParse_core, hh, hb, he, hv, hei, hp]
  · intro a hh hb he hd2 hv
    simp [IoTParse_core, hh, hb, he, hd2, hv, hei, hp]
  · intro a hh hb he hd2 hs hv
    simp [IoTParse_core, hh, hb, he, hd2, hs, hv, hei, hp]
  · intro hu
    obtain ⟨hh, hb, he, hd2, hs⟩ := hu
    by_cases hv : extractDeviceId t dflt ∈ SUPPORTED_DEVICES
    · simp [IoTParse_core, hh, hb, he, hd2, hs, hv, hei]
    · simp [IoTParse_core, hh, hb, he, hd2, hs, hv]

/-- Claim C3 (amended): on the lower-cased and trimmed text, the grammars the
parser implements are exactly `hi`/`hello`/`/start` → Help; `/bind <id>` (id
in the catalog) → Bind; `turn on`/`/enable` with an optional trailing device
id → Enable; `turn off`/`/disable` → Disable; `get status`/`/status` →
GetStatus (each subject to the resolved id being in the catalog); every other
text — including `/setstatus (on|off)`, `/getstatus` and
`turn on the light` — is rejected as an invalid command. -/
theorem c3_amended_grammar :
    ∀ (env : Env) (text dflt chat : List Char) (b : Bindings),
      env.deviceInitOk = true → env.publishOk = true →
      (isHelpText (normalizeText text) →
        (IoTParse_Message env text dflt chat b).1.action = some "Help".data ∧
        (IoTParse_Message env text dflt chat b).1.success = true) ∧
      (∀ d, bind_match (normalizeText text) = some d → d ∈ SUPPORTED_DEVICES →
        ¬isHelpText (normalizeText text) →
        (IoTParse_Message env text dflt chat b).1.action = some "Bind".data ∧
        (IoTParse_Message env text dflt chat b).1.success = true) ∧
      (∀ a, ¬isHelpText (normalizeText text) →
        bind_match (normalizeText text) = none →
        enable_match (normalizeText text) = some a →
        extractDeviceId (normalizeText text) dflt ∈ SUPPORTED_DEVICES →
        (IoTParse_Message env text dflt chat b).1.action = some "Enable".data ∧
        (IoTParse_Message env text dflt chat b).1.success = true) ∧
      (∀ a, ¬isHelpText (normalizeText text) →
        bind_match (normalizeText text) = none →
        enable_match (normalizeText text) = none →
        disable_match (normalizeText text) = some a →
        extractDeviceId (normalizeText text) dflt ∈ SUPPORTED_DEVICES →
        (IoTParse_Message env text dflt chat b).1.action = some "Disable".data ∧
        (IoTParse_Message env text dflt chat b).1.success = true) ∧
      (∀ a, ¬isHelpText (normalizeText text) →
        bind_match (normalizeText text) = none →
        enable_match (normalizeText text) = none →
        disable_match (normalizeText text) = none →
        status_match (normalizeText text) = some a →
        extractDeviceId (normalizeText text) dflt ∈ SUPPORTED_DEVICES →
        (IoTParse_Message env text dflt chat b).1.action = some "GetStatus".data ∧
        (IoTParse_Message env text dflt chat b).1.success = true) ∧
      (unrecognizedText (normalizeText text) →
        (IoTParse_Message env text dflt chat b).1.success = false ∧
        (IoTParse_Message env text dflt chat b).1.action = none) := by
  intro env text dflt chat b hei hp
  exact c3_core env (normalizeText text) dflt chat b hei hp

/-- Claim C3 (witness for the amended grammar): `turn on esp32_fan_002` parses
to Enable with success. -/
theorem c3_amended_witness :
    (IoTParse_Message ⟨true, true⟩ "turn on esp32_fan_002".data
      "esp32_light_001".data "7".data (fun _ => [])).1.action = some "Enable".data ∧
    (IoTParse_Message ⟨true, true⟩ "turn on esp32_fan_002".data
      "esp32_light_001".data "7".data (fun _ => [])).1.success = true :=
  (c3_amended_grammar ⟨true, true⟩ "turn on esp32_fan_002".data
      "esp32_light_001".data "7".data (fun _ => []) rfl rfl).2.2.1
    (some "esp32_fan_002".data) (by decide) (by decide) (by decide) (by decide)

/-- Claim C8: parsing is invariant under letter-case changes and added
leading/trailing whitespace — for any text, any case-variant of it wrapped in
any whitespace parses to the identical result (so in particular recognised
command texts map to the same command variant). -/
theorem c8_parse_case_whitespace_invariant :
    ∀ (env : Env) (t t' w1 w2 dflt chat : List Char) (b : Bindings),
      w1.all isPySpace = true → w2.all isPySpace = true →
      pyLower t' = pyLower t →
      IoTParse_Message env (w1 ++ t' ++ w2) dflt chat b =
        IoTParse_Message env t dflt chat b := by
  intro env t t' w1 w2 dflt chat b h1 h2 hc
  unfold IoTParse_Message
  rw [normalizeText_invariant t t' w1 w2 h1 h2 hc]

/-- Claim C8 (witness): `"  TURN ON\t"` parses identically to `"turn on"`. -/
theorem c8_witness :
    IoTParse_Message ⟨true, true⟩ ("  ".data ++ "TURN ON".data ++ "\t".data)
        "esp32_light_001".data "7".data (fun _ => []) =
      IoTParse_Message ⟨true, true⟩ "turn on".data "esp32_light_001".data
        "7".data (fun _ => []) :=
  c8_parse_case_whitespace_invariant ⟨true, true⟩ "turn on".data "TURN ON".data
    "  ".data "\t".data "esp32_light_001".data "7".data (fun _ => [])
    (by decide) (by decide) (by decide)
